import Mathlib

/-! Shallow embedding of the foundation layout tool (streamlit_app.py):
the data model, the constraint validator (Checks 1-3), the metrics
estimator, the circular pattern generator, CSV export, and the
session-state operations (add / generate / clear / save / load). -/

namespace FoundationLayout

/-- Foundation parameters read from the sidebar sliders, in meters. -/
structure FoundationSpec where
  foundation_diameter : ℚ
  wall_thickness : ℚ
  deriving DecidableEq

/-- A prestressing tendon record: id, center coordinates, diameter in
millimeters, and the tag stored in the 'type' field. The coordinate type is
a parameter: the validator works over exact rational coordinates, while the
pattern generator produces real (trigonometric) coordinates. -/
structure Tendon (α : Type) where
  id : Nat
  x : α
  y : α
  diameter : ℚ
  type : String
  deriving DecidableEq

/-- A grout connection record: id, center coordinates, diameter in millimeters. -/
structure GroutConnection (α : Type) where
  id : Nat
  x : α
  y : α
  diameter : ℚ
  deriving DecidableEq

/-- An access shaft record: id, center coordinates, diameter in meters. -/
structure AccessShaft (α : Type) where
  id : Nat
  x : α
  y : α
  diameter : ℚ
  deriving DecidableEq

/-- The current layout dictionary: name plus the three component collections.
The foundation parameters are not part of it; they live in the sliders. -/
structure Layout (α : Type) where
  name : String
  tendons : List (Tendon α)
  grout_connections : List (GroutConnection α)
  access_shafts : List (AccessShaft α)
  deriving DecidableEq

/-- Exact encoding over ℚ of the comparison `Real.sqrt s > t` that the source
performs with `np.sqrt`: since a square root is nonnegative, it exceeds `t`
iff `t` is negative or `t^2 < s`. `sqrtGtQ_iff_real` below proves the
encoding equivalent to the real-number comparison. -/
def sqrtGtQ (s t : ℚ) : Prop := t < 0 ∨ t ^ 2 < s

instance (s t : ℚ) : Decidable (sqrtGtQ s t) := by
  unfold sqrtGtQ; infer_instance

/-- Exact encoding over ℚ of the comparison `Real.sqrt s < t`:
it holds iff `t` is positive and `s < t^2` (see `sqrtLtQ_iff_real`). -/
def sqrtLtQ (s t : ℚ) : Prop := 0 < t ∧ s < t ^ 2

instance (s t : ℚ) : Decidable (sqrtLtQ s t) := by
  unfold sqrtLtQ; infer_instance

theorem sqrtGtQ_iff_real (s t : ℚ) :
    sqrtGtQ s t ↔ (t : ℝ) < Real.sqrt (s : ℝ) := by
  unfold sqrtGtQ
  rcases lt_or_le t 0 with h | h
  · have ht : (t : ℝ) < 0 := by exact_mod_cast h
    simp only [h, true_or, true_iff]
    exact lt_of_lt_of_le ht (Real.sqrt_nonneg _)
  · have ht : (0 : ℝ) ≤ (t : ℝ) := by exact_mod_cast h
    rw [Real.lt_sqrt ht]
    constructor
    · rintro (h1 | h2)
      · exact absurd h1 (not_lt.mpr h)
      · exact_mod_cast h2
    · intro h2
      exact Or.inr (by exact_mod_cast h2)

theorem sqrtLtQ_iff_real (s t : ℚ) :
    sqrtLtQ s t ↔ Real.sqrt (s : ℝ) < (t : ℝ) := by
  unfold sqrtLtQ
  rcases le_or_lt t 0 with h | h
  · have ht : (t : ℝ) ≤ 0 := by exact_mod_cast h
    constructor
    · rintro ⟨h1, _⟩
      exact absurd h1 (not_lt.mpr h)
    · intro hlt
      exact absurd (lt_of_le_of_lt (Real.sqrt_nonneg _) hlt) (not_lt.mpr ht)
  · have ht : (0 : ℝ) < (t : ℝ) := by exact_mod_cast h
    rw [Real.sqrt_lt' ht]
    constructor
    · rintro ⟨_, h2⟩
      exact_mod_cast h2
    · intro h2
      exact ⟨h, by exact_mod_cast h2⟩

/-- Fixed minimum tendon-tendon clearance in meters (`min_clearance = 0.3`). -/
def min_clearance : ℚ := 0.3

/-- Check 1 condition for one tendon:
`np.sqrt(x**2 + y**2) + diameter/1000/2 > foundation_diameter/2 - wall_thickness`,
encoded exactly via `sqrtGtQ` on the squared radial offset. -/
def containmentViolated (fs : FoundationSpec) (t : Tendon ℚ) : Prop :=
  sqrtGtQ (t.x ^ 2 + t.y ^ 2)
    (fs.foundation_diameter / 2 - fs.wall_thickness - t.diameter / 1000 / 2)

instance (fs : FoundationSpec) (t : Tendon ℚ) : Decidable (containmentViolated fs t) := by
  unfold containmentViolated; infer_instance

/-- Structured form of the validation messages. Check 1 reports the tendon id
("Tendon T(id) too close to wall"); Check 2 reports the two loop indices and
the required minimum distance appearing in its message; Check 3 reports the
grout id and tendon id. -/
inductive Finding where
  | containment (id : Nat)
  | clearance (i j : Nat) (minDist : ℚ)
  | groutNear (gid tid : Nat)
  deriving DecidableEq

/-- Check 1: one containment finding per violating tendon, in collection order. -/
def check1 (fs : FoundationSpec) (ts : List (Tendon ℚ)) : List Finding :=
  ts.filterMap fun t =>
    if containmentViolated fs t then some (Finding.containment t.id) else none

/-- Required minimum center distance of Check 2:
`(t1.diameter + t2.diameter)/1000/2 + min_clearance`. -/
def minDistQ (t1 t2 : Tendon ℚ) : ℚ :=
  (t1.diameter + t2.diameter) / 1000 / 2 + min_clearance

/-- Check 2 condition for one pair: center distance strictly below `minDistQ`. -/
def clearanceViolated (t1 t2 : Tendon ℚ) : Prop :=
  sqrtLtQ ((t1.x - t2.x) ^ 2 + (t1.y - t2.y) ^ 2) (minDistQ t1 t2)

instance (t1 t2 : Tendon ℚ) : Decidable (clearanceViolated t1 t2) := by
  unfold clearanceViolated; infer_instance

/-- Default used only to give `List.getD` a total type inside `check2`;
never selected when the index is in bounds. -/
def defaultTendon : Tendon ℚ := ⟨0, 0, 0, 0, ""⟩

/-- Check 2: `for i, t1 in enumerate(tendons): for j, t2 in
enumerate(tendons[i+1:], i+1): ...`. The inner enumeration pairs each index
`j = i+1 .. len-1` with `tendons[j]`, so the loop visits exactly the index
pairs `(i, j)` with `i < j < len`, in lexicographic order. -/
def check2 (ts : List (Tendon ℚ)) : List Finding :=
  (List.range ts.length).flatMap fun i =>
    (List.range' (i + 1) (ts.length - (i + 1))).flatMap fun j =>
      if clearanceViolated (ts.getD i defaultTendon) (ts.getD j defaultTendon) then
        [Finding.clearance i j (minDistQ (ts.getD i defaultTendon) (ts.getD j defaultTendon))]
      else []

/-- Check 3 condition for one (grout, tendon) pair: center distance strictly
below `grout.diameter/1000/2 + tendon.diameter/1000/2 + 0.2`. -/
def groutNearTendon (g : GroutConnection ℚ) (t : Tendon ℚ) : Prop :=
  sqrtLtQ ((g.x - t.x) ^ 2 + (g.y - t.y) ^ 2)
    (g.diameter / 1000 / 2 + t.diameter / 1000 / 2 + 0.2)

instance (g : GroutConnection ℚ) (t : Tendon ℚ) : Decidable (groutNearTendon g t) := by
  unfold groutNearTendon; infer_instance

/-- Check 3: grout loop outer, tendon loop inner; warnings, not violations. -/
def check3 (gs : List (GroutConnection ℚ)) (ts : List (Tendon ℚ)) : List Finding :=
  gs.flatMap fun g =>
    ts.filterMap fun t =>
      if groutNearTendon g t then some (Finding.groutNear g.id t.id) else none

/-- The two result lists of the validation section. -/
structure ValidationResult where
  violations : List Finding
  warnings : List Finding
  deriving DecidableEq

/-- The validation section in order: Check 1 then Check 2 append to
`violations`; Check 3 appends to `warnings`. -/
def validate (fs : FoundationSpec) (L : Layout ℚ) : ValidationResult :=
  ⟨check1 fs L.tendons ++ check2 L.tendons, check3 L.grout_connections L.tendons⟩

/-- Fixed per-tendon steel mass in kg (`steel_per_tendon = 150`). -/
def steel_per_tendon : ℚ := 150

/-- Fixed steel cost in USD per kg (`steel_cost_per_kg = 3.50`). -/
def steel_cost_per_kg : ℚ := 3.5

/-- The three displayed estimates. -/
structure Metrics where
  totalSteelKg : ℚ
  steelCostUsd : ℚ
  complexityScore : ℚ
  deriving DecidableEq

/-- The Estimates section: steel mass, steel cost, and the complexity score
`min(10, 2 + tendon_count*0.3 + grout_count*0.5)`. -/
def estimate {α : Type} (L : Layout α) : Metrics :=
  let tendon_count : ℚ := L.tendons.length
  { totalSteelKg := tendon_count * steel_per_tendon
    steelCostUsd := tendon_count * steel_per_tendon * steel_cost_per_kg
    complexityScore :=
      min 10 (2 + tendon_count * 0.3 + (L.grout_connections.length : ℚ) * 0.5) }

/-- Columns of the exported CSV, in dictionary-key order of the tendon records. -/
def csvHeaderFields : List String := ["id", "x", "y", "diameter", "type"]

/-- The five fields of one tendon, rendered to strings in column order. -/
def tendonCsvFields (t : Tendon ℚ) : List String :=
  [toString t.id, toString t.x, toString t.y, toString t.diameter, t.type]

/-- Row structure of `pd.DataFrame(tendons).to_csv(index=False)`: the header
row followed by one row per tendon in collection order. -/
def exportTendonsRows (ts : List (Tendon ℚ)) : List (List String) :=
  csvHeaderFields :: ts.map tendonCsvFields

def commaStr : String := ","

def newlineStr : String := "\n"

/-- The CSV text: fields comma-separated, rows newline-separated, with a
trailing newline after the last row. -/
def exportTendonsCsv (ts : List (Tendon ℚ)) : String :=
  String.intercalate newlineStr ((exportTendonsRows ts).map (String.intercalate commaStr))
    ++ newlineStr

/-- Angle of the k-th point of `np.linspace(0, 2*np.pi, count, endpoint=False)`,
namely `2*pi*k/count`. -/
noncomputable def patternAngle (count k : Nat) : ℝ := 2 * Real.pi * k / count

/-- Generate Circular Pattern button handler: `count` tendons with ids
`0..count-1`, tendon `k` at `(radius*cos(angle k), radius*sin(angle k))`. -/
noncomputable def generateCircularPattern (count : Nat) (radius : ℝ) (diameter : ℚ) :
    List (Tendon ℝ) :=
  (List.range count).map fun k =>
    ⟨k, radius * Real.cos (patternAngle count k), radius * Real.sin (patternAngle count k),
      diameter, "vertical"⟩

/-- One saved snapshot: the copied collections plus name, timestamp and the
slider values at save time. -/
structure SavedLayout where
  name : String
  timestamp : String
  tendons : List (Tendon ℝ)
  grout_connections : List (GroutConnection ℝ)
  access_shafts : List (AccessShaft ℝ)
  foundation_diameter : ℚ
  wall_thickness : ℚ

/-- The mutable session: the current layout, the list of saved snapshots, and
the two foundation sliders. -/
structure SessionState where
  current_layout : Layout ℝ
  layouts : List SavedLayout
  foundation_diameter : ℚ
  wall_thickness : ℚ

/-- The user actions that mutate the session state. -/
inductive Op where
  | generatePattern (count : Nat) (radius : ℝ) (diameter : ℚ)
  | addTendon (x y : ℝ) (diameter : ℚ)
  | addGrout (x y : ℝ) (diameter : ℚ)
  | addShaft (x y : ℝ) (diameter : ℚ)
  | clearAll
  | setFoundation (fd wt : ℚ)
  | setName (n : String)
  | saveLayout (timestamp : String)
  | loadLayout (i : Nat)

/-- One user action as a state transition, following the button handlers:
pattern generation replaces the tendon list; manual additions append with
id = current length; Clear All empties the three collections; Save appends a
snapshot of the current layout and sliders; Load (for a valid index) replaces
the current layout with a copy of the snapshot, name suffixed with " (copy)",
without touching the sliders. -/
noncomputable def step (s : SessionState) : Op → SessionState
  | .generatePattern count radius diameter =>
      { s with current_layout :=
          { s.current_layout with tendons := generateCircularPattern count radius diameter } }
  | .addTendon x y diameter =>
      { s with current_layout :=
          { s.current_layout with tendons := s.current_layout.tendons ++
              [⟨s.current_layout.tendons.length, x, y, diameter, "vertical"⟩] } }
  | .addGrout x y diameter =>
      { s with current_layout :=
          { s.current_layout with grout_connections := s.current_layout.grout_connections ++
              [⟨s.current_layout.grout_connections.length, x, y, diameter⟩] } }
  | .addShaft x y diameter =>
      { s with current_layout :=
          { s.current_layout with access_shafts := s.current_layout.access_shafts ++
              [⟨s.current_layout.access_shafts.length, x, y, diameter⟩] } }
  | .clearAll =>
      { s with current_layout :=
          { s.current_layout with tendons := [], grout_connections := [], access_shafts := [] } }
  | .setFoundation fd wt => { s with foundation_diameter := fd, wall_thickness := wt }
  | .setName n => { s with current_layout := { s.current_layout with name := n } }
  | .saveLayout timestamp =>
      { s with layouts := s.layouts ++
          [⟨s.current_layout.name, timestamp, s.current_layout.tendons,
            s.current_layout.grout_connections, s.current_layout.access_shafts,
            s.foundation_diameter, s.wall_thickness⟩] }
  | .loadLayout i =>
      match s.layouts[i]? with
      | some l =>
          { s with current_layout :=
              ⟨l.name ++ " (copy)", l.tendons, l.grout_connections, l.access_shafts⟩ }
      | none => s

/-- Session start: empty collections, default slider values 10.0 m and 0.8 m. -/
def initState : SessionState :=
  ⟨⟨"Layout 1", [], [], []⟩, [], 10, 0.8⟩

/-- Run a sequence of user actions from a given state. -/
noncomputable def runFrom (s : SessionState) (ops : List Op) : SessionState :=
  ops.foldl step s

theorem filterMap_if {α β : Type} (p : α → Prop) [DecidablePred p] (f : α → β) :
    ∀ l : List α,
      l.filterMap (fun a => if p a then some (f a) else none) =
        (l.filter fun a => decide (p a)).map f := by
  intro l
  induction l with
  | nil => rfl
  | cons a l ih =>
      by_cases h : p a <;>
        simp [List.filterMap_cons, List.filter_cons, h, ih]

theorem mem_check1 (fs : FoundationSpec) (ts : List (Tendon ℚ)) (f : Finding) :
    f ∈ check1 fs ts ↔
      ∃ t ∈ ts, containmentViolated fs t ∧ f = Finding.containment t.id := by
  unfold check1
  simp only [List.mem_filterMap]
  constructor
  · rintro ⟨t, ht, hsome⟩
    by_cases h : containmentViolated fs t
    · rw [if_pos h] at hsome
      exact ⟨t, ht, h, (Option.some_inj.mp hsome).symm⟩
    · rw [if_neg h] at hsome
      cases hsome
  · rintro ⟨t, ht, h, rfl⟩
    exact ⟨t, ht, by rw [if_pos h]⟩

theorem check1_eq_nil_iff (fs : FoundationSpec) (ts : List (Tendon ℚ)) :
    check1 fs ts = [] ↔ ∀ t ∈ ts, ¬ containmentViolated fs t := by
  unfold check1
  rw [List.filterMap_eq_nil_iff]
  constructor
  · intro h t ht hviol
    have := h t ht
    rw [if_pos hviol] at this
    cases this
  · intro h t ht
    rw [if_neg (h t ht)]

theorem mem_check3 (gs : List (GroutConnection ℚ)) (ts : List (Tendon ℚ)) (f : Finding) :
    f ∈ check3 gs ts ↔
      ∃ g ∈ gs, ∃ t ∈ ts, groutNearTendon g t ∧ f = Finding.groutNear g.id t.id := by
  unfold check3
  simp only [List.mem_flatMap, List.mem_filterMap]
  constructor
  · rintro ⟨g, hg, t, ht, hsome⟩
    by_cases h : groutNearTendon g t
    · rw [if_pos h] at hsome
      exact ⟨g, hg, t, ht, h, (Option.some_inj.mp hsome).symm⟩
    · rw [if_neg h] at hsome
      cases hsome
  · rintro ⟨g, hg, t, ht, h, rfl⟩
    exact ⟨g, hg, t, ht, by rw [if_pos h]⟩

theorem check3_eq_nil_iff (gs : List (GroutConnection ℚ)) (ts : List (Tendon ℚ)) :
    check3 gs ts = [] ↔ ∀ g ∈ gs, ∀ t ∈ ts, ¬ groutNearTendon g t := by
  constructor
  · intro h g hg t ht hnear
    have : Finding.groutNear g.id t.id ∈ check3 gs ts :=
      (mem_check3 gs ts _).mpr ⟨g, hg, t, ht, hnear, rfl⟩
    rw [h] at this
    cases this
  · intro h
    rcases hne : check3 gs ts with _ | ⟨f, rest⟩
    · rfl
    · exfalso
      have hf : f ∈ check3 gs ts := by rw [hne]; exact List.mem_cons_self f rest
      rcases (mem_check3 gs ts f).mp hf with ⟨g, hg, t, ht, hnear, _⟩
      exact h g hg t ht hnear

theorem mem_range'_one {s n m : Nat} : m ∈ List.range' s n ↔ s ≤ m ∧ m < s + n := by
  rw [List.mem_range']
  constructor
  · rintro ⟨i, hi, rfl⟩
    omega
  · rintro ⟨h1, h2⟩
    exact ⟨m - s, by omega, by omega⟩

/-- Boolean matcher: is this finding a Check 2 finding for the index pair (i, j)? -/
def isClearancePair (i j : Nat) : Finding → Bool
  | .clearance a b _ => a == i && b == j
  | _ => false

theorem mem_check2 (ts : List (Tendon ℚ)) (f : Finding) :
    f ∈ check2 ts ↔ ∃ i j, i < j ∧ j < ts.length ∧
      clearanceViolated (ts.getD i defaultTendon) (ts.getD j defaultTendon) ∧
      f = Finding.clearance i j
        (minDistQ (ts.getD i defaultTendon) (ts.getD j defaultTendon)) := by
  unfold check2
  simp only [List.mem_flatMap, List.mem_range, mem_range'_one]
  constructor
  · rintro ⟨i, hi, j, ⟨hj1, hj2⟩, hf⟩
    by_cases h : clearanceViolated (ts.getD i defaultTendon) (ts.getD j defaultTendon)
    · rw [if_pos h] at hf
      rcases List.mem_singleton.mp hf with rfl
      exact ⟨i, j, by omega, by omega, h, rfl⟩
    · rw [if_neg h] at hf
      cases hf
  · rintro ⟨i, j, hij, hj, h, rfl⟩
    refine ⟨i, by omega, j, ⟨by omega, by omega⟩, ?_⟩
    rw [if_pos h]
    exact List.mem_singleton_self _

theorem countP_flatMap {α β : Type} (p : β → Bool) (l : List α) (g : α → List β) :
    (l.flatMap g).countP p = (l.map fun a => (g a).countP p).sum := by
  induction l with
  | nil => rfl
  | cons a l ih => simp [List.flatMap_cons, List.countP_append, ih]

theorem sum_map_eq_single {α : Type} (c : α → Nat) :
    ∀ (l : List α), l.Nodup → ∀ j ∈ l, (∀ k ∈ l, k ≠ j → c k = 0) →
      (l.map c).sum = c j := by
  intro l
  induction l with
  | nil =>
      intro _ j hj
      cases hj
  | cons a l ih =>
      intro hnd j hj hz
      rcases List.mem_cons.mp hj with rfl | hjl
      · have hrest : (l.map c).sum = 0 := by
          apply List.sum_eq_zero
          intro x hx
          rcases List.mem_map.mp hx with ⟨k, hk, rfl⟩
          exact hz k (List.mem_cons_of_mem _ hk)
            (fun h => (List.nodup_cons.mp hnd).1 (h ▸ hk))
        rw [List.map_cons, List.sum_cons, hrest, Nat.add_zero]
      · have ha : c a = 0 :=
          hz a (List.mem_cons_self _ _) (fun h => (List.nodup_cons.mp hnd).1 (h ▸ hjl))
        rw [List.map_cons, List.sum_cons, ha, Nat.zero_add]
        exact ih (List.nodup_cons.mp hnd).2 j hjl
          (fun k hk hkj => hz k (List.mem_cons_of_mem _ hk) hkj)

theorem countP_check2 (ts : List (Tendon ℚ)) (i j : Nat) (hij : i < j) (hj : j < ts.length) :
    (check2 ts).countP (isClearancePair i j) =
      if clearanceViolated (ts.getD i defaultTendon) (ts.getD j defaultTendon) then 1
      else 0 := by
  have hlen : i < ts.length := lt_trans hij hj
  unfold check2
  rw [countP_flatMap]
  rw [sum_map_eq_single _ (List.range ts.length) (List.nodup_range _) i
      (List.mem_range.mpr hlen) ?outer]
  case outer =>
    intro k hk hki
    apply List.countP_eq_zero.mpr
    intro f hf
    rcases List.mem_flatMap.mp hf with ⟨j', _, hf'⟩
    by_cases h : clearanceViolated (ts.getD k defaultTendon) (ts.getD j' defaultTendon)
    · rw [if_pos h] at hf'
      rcases List.mem_singleton.mp hf' with rfl
      simp [isClearancePair, hki]
    · rw [if_neg h] at hf'
      cases hf'
  rw [countP_flatMap]
  rw [sum_map_eq_single _ (List.range' (i + 1) (ts.length - (i + 1)))
      (List.nodup_range' _ _) j (mem_range'_one.mpr ⟨by omega, by omega⟩) ?inner]
  case inner =>
    intro k hk hkj
    by_cases h : clearanceViolated (ts.getD i defaultTendon) (ts.getD k defaultTendon)
    · rw [if_pos h]
      simp [isClearancePair, hkj]
    · rw [if_neg h]
      rfl
  by_cases h : clearanceViolated (ts.getD i defaultTendon) (ts.getD j defaultTendon)
  · rw [if_pos h, if_pos h]
    simp [isClearancePair]
  · rw [if_neg h, if_neg h]
    rfl

theorem countP_check2_rev (ts : List (Tendon ℚ)) (i j : Nat) (hij : i < j) :
    (check2 ts).countP (isClearancePair j i) = 0 := by
  apply List.countP_eq_zero.mpr
  intro f hf
  rcases (mem_check2 ts f).mp hf with ⟨a, b, hab, _, _, rfl⟩
  simp only [isClearancePair, Bool.and_eq_true, beq_iff_eq, not_and]
  intro ha hb
  omega

/-- C1: the containment rule of `validate` reports a violation, keyed by the
tendon's id and in collection order, for exactly the tendons whose encoded
test fires, and the encoded test is equivalent to the real-valued comparison
`sqrt(x^2+y^2) + diameter/2000 > foundation_diameter/2 - wall_thickness`
(strict, so the exact boundary placement produces no violation and any
strictly farther placement does). -/
theorem claim_C1 (fs : FoundationSpec) (L : Layout ℚ) :
    (validate fs L).violations = check1 fs L.tendons ++ check2 L.tendons
    ∧ check1 fs L.tendons =
        (L.tendons.filter fun t => decide (containmentViolated fs t)).map
          (fun t => Finding.containment t.id)
    ∧ ∀ t : Tendon ℚ, containmentViolated fs t ↔
        (fs.foundation_diameter : ℝ) / 2 - (fs.wall_thickness : ℝ) <
          Real.sqrt ((t.x : ℝ) ^ 2 + (t.y : ℝ) ^ 2) + (t.diameter : ℝ) / 2000 := by
  refine ⟨rfl, filterMap_if _ _ _, ?_⟩
  intro t
  unfold containmentViolated
  rw [sqrtGtQ_iff_real]
  have hcast : ((t.x ^ 2 + t.y ^ 2 : ℚ) : ℝ) = (t.x : ℝ) ^ 2 + (t.y : ℝ) ^ 2 := by
    push_cast
    ring
  rw [hcast]
  push_cast
  constructor <;> intro h <;> linarith

/-- C5: the estimates are `totalSteelKg = tendonCount * 150`,
`steelCostUsd = totalSteelKg * 3.50`, and
`complexityScore = min(10, 2 + tendonCount*0.3 + groutCount*0.5)`, which
always lies in [2, 10]; 8 tendons and no grout give (1200, 4200, 4.4), and
the layout produced by Clear All has empty collections and estimates
(0, 0, 2). -/
theorem claim_C5 {α : Type} (L : Layout α) (s : SessionState) :
    estimate L = ⟨(L.tendons.length : ℚ) * 150, (L.tendons.length : ℚ) * 150 * 3.5,
        min 10 (2 + (L.tendons.length : ℚ) * 0.3 + (L.grout_connections.length : ℚ) * 0.5)⟩
    ∧ 2 ≤ (estimate L).complexityScore
    ∧ (estimate L).complexityScore ≤ 10
    ∧ (L.tendons.length = 8 → L.grout_connections.length = 0 →
        estimate L = ⟨1200, 4200, 4.4⟩)
    ∧ (runFrom s [Op.clearAll]).current_layout.tendons = []
    ∧ (runFrom s [Op.clearAll]).current_layout.grout_connections = []
    ∧ (runFrom s [Op.clearAll]).current_layout.access_shafts = []
    ∧ estimate (runFrom s [Op.clearAll]).current_layout = ⟨0, 0, 2⟩ := by
  have hscore : (estimate L).complexityScore =
      min 10 (2 + (L.tendons.length : ℚ) * 0.3 + (L.grout_connections.length : ℚ) * 0.5) :=
    rfl
  refine ⟨rfl, ?_, ?_, ?_, rfl, rfl, rfl, ?_⟩
  · rw [hscore]
    apply le_min (by norm_num)
    have h1 : (0 : ℚ) ≤ (L.tendons.length : ℚ) * 0.3 := by positivity
    have h2 : (0 : ℚ) ≤ (L.grout_connections.length : ℚ) * 0.5 := by positivity
    linarith
  · rw [hscore]
    exact min_le_left _ _
  · intro h8 h0
    unfold estimate steel_per_tendon steel_cost_per_kg
    rw [h8, h0]
    norm_num
  · unfold runFrom
    show estimate (step s Op.clearAll).current_layout = _
    unfold estimate
    norm_num [step]

/-- C5 witness: a concrete 8-tendon, no-grout layout evaluates to
(1200, 4200, 4.4). -/
theorem claim_C5_witness :
    estimate (α := ℚ) ⟨"L", [⟨0, 0, 0, 150, "vertical"⟩, ⟨1, 1, 0, 150, "vertical"⟩,
      ⟨2, 2, 0, 150, "vertical"⟩, ⟨3, 3, 0, 150, "vertical"⟩, ⟨4, 0, 1, 150, "vertical"⟩,
      ⟨5, 1, 1, 150, "vertical"⟩, ⟨6, 2, 1, 150, "vertical"⟩, ⟨7, 3, 1, 150, "vertical"⟩],
      [], []⟩ = ⟨1200, 4200, 4.4⟩ :=
  (claim_C5 _ initState).2.2.2.1 rfl rfl

/-- C6: with a degenerate foundation (inner radius at most 0) and positive
tendon diameters, the validator still evaluates and flags every tendon with a
containment violation. -/
theorem claim_C6 (fs : FoundationSpec) (L : Layout ℚ)
    (hdeg : fs.foundation_diameter / 2 - fs.wall_thickness ≤ 0)
    (hpos : ∀ t ∈ L.tendons, 0 < t.diameter) :
    (∀ t ∈ L.tendons, containmentViolated fs t)
    ∧ check1 fs L.tendons = L.tendons.map (fun t => Finding.containment t.id)
    ∧ ∀ t ∈ L.tendons, Finding.containment t.id ∈ (validate fs L).violations := by
  have hall : ∀ t ∈ L.tendons, containmentViolated fs t := by
    intro t ht
    unfold containmentViolated sqrtGtQ
    left
    have hd : 0 < t.diameter / 1000 / 2 := by
      have := hpos t ht
      positivity
    linarith
  refine ⟨hall, ?_, ?_⟩
  · rw [check1, filterMap_if]
    rw [List.filter_eq_self.mpr fun t ht => decide_eq_true (hall t ht)]
  · intro t ht
    exact List.mem_append_left _ ((mem_check1 fs L.tendons _).mpr ⟨t, ht, hall t ht, rfl⟩)

/-- C6 witness: foundation diameter 1 m with wall thickness 2 m (inner radius
-1.5 m) flags the single centered tendon. -/
theorem claim_C6_witness :
    Finding.containment 0 ∈
      (validate ⟨1, 2⟩ ⟨"L", [⟨0, 0, 0, 150, "vertical"⟩], [], []⟩).violations := by
  refine (claim_C6 ⟨1, 2⟩ ⟨"L", [⟨0, 0, 0, 150, "vertical"⟩], [], []⟩ (by norm_num) ?_).2.2
    ⟨0, 0, 0, 150, "vertical"⟩ (List.mem_singleton_self _)
  intro t ht
  rw [List.mem_singleton.mp ht]
  norm_num

/-- C7: loading a valid snapshot index replaces the current layout by a copy
of the snapshot's name (with " (copy)" appended) and its three collections,
while the foundation sliders and the saved list are untouched; the snapshot's
recorded foundation parameters are not restored anywhere. -/
theorem claim_C7 (s : SessionState) (i : Nat) (hi : i < s.layouts.length) :
    (step s (Op.loadLayout i)).current_layout.name =
        (s.layouts.get ⟨i, hi⟩).name ++ " (copy)"
    ∧ (step s (Op.loadLayout i)).current_layout.tendons = (s.layouts.get ⟨i, hi⟩).tendons
    ∧ (step s (Op.loadLayout i)).current_layout.grout_connections =
        (s.layouts.get ⟨i, hi⟩).grout_connections
    ∧ (step s (Op.loadLayout i)).current_layout.access_shafts =
        (s.layouts.get ⟨i, hi⟩).access_shafts
    ∧ (step s (Op.loadLayout i)).foundation_diameter = s.foundation_diameter
    ∧ (step s (Op.loadLayout i)).wall_thickness = s.wall_thickness
    ∧ (step s (Op.loadLayout i)).layouts = s.layouts := by
  have h : s.layouts[i]? = some (s.layouts.get ⟨i, hi⟩) := by
    rw [List.getElem?_eq_getElem hi]
    rfl
  simp only [step, h]
  exact ⟨trivial, trivial, trivial, trivial, trivial, trivial, trivial⟩

/-- C7 witness: loading the single saved snapshot of a concrete session. -/
theorem claim_C7_witness :
    (step ⟨⟨"Cur", [], [], []⟩, [⟨"Base", "t0", [], [], [], 12, 0.5⟩], 10, 0.8⟩
        (Op.loadLayout 0)).current_layout.name = "Base (copy)"
    ∧ (step ⟨⟨"Cur", [], [], []⟩, [⟨"Base", "t0", [], [], [], 12, 0.5⟩], 10, 0.8⟩
        (Op.loadLayout 0)).foundation_diameter = 10 := by
  have h := claim_C7 ⟨⟨"Cur", [], [], []⟩, [⟨"Base", "t0", [], [], [], 12, 0.5⟩], 10, 0.8⟩ 0
    (by decide)
  exact ⟨h.1, h.2.2.2.2.1⟩

theorem step_layouts_getElem? (s : SessionState) (op : Op) (i : Nat)
    (hi : i < s.layouts.length) :
    (step s op).layouts[i]? = s.layouts[i]? ∧
      s.layouts.length ≤ (step s op).layouts.length := by
  cases op with
  | generatePattern count radius diameter => exact ⟨rfl, le_refl _⟩
  | addTendon x y diameter => exact ⟨rfl, le_refl _⟩
  | addGrout x y diameter => exact ⟨rfl, le_refl _⟩
  | addShaft x y diameter => exact ⟨rfl, le_refl _⟩
  | clearAll => exact ⟨rfl, le_refl _⟩
  | setFoundation fd wt => exact ⟨rfl, le_refl _⟩
  | setName n => exact ⟨rfl, le_refl _⟩
  | saveLayout t =>
      constructor
      · show (s.layouts ++ [_])[i]? = s.layouts[i]?
        rw [List.getElem?_append_left hi]
      · show s.layouts.length ≤ (s.layouts ++ [_]).length
        simp
  | loadLayout i' =>
      rcases h : s.layouts[i']? with _ | l <;> simp only [step, h] <;>
        exact ⟨trivial, le_refl _⟩

theorem runFrom_layouts_getElem? (ops : List Op) :
    ∀ (s : SessionState) (i : Nat), i < s.layouts.length →
      (runFrom s ops).layouts[i]? = s.layouts[i]? := by
  induction ops with
  | nil =>
      intro s i _
      rfl
  | cons op ops ih =>
      intro s i hi
      have h := step_layouts_getElem? s op i hi
      have h2 := ih (step s op) i (lt_of_lt_of_le hi h.2)
      calc (runFrom s (op :: ops)).layouts[i]?
          = (runFrom (step s op) ops).layouts[i]? := rfl
        _ = (step s op).layouts[i]? := h2
        _ = s.layouts[i]? := h.1

/-- C8: saving appends a value copy of the current layout (with name,
timestamp and the slider values), and no sequence of subsequent operations
ever changes an already-saved snapshot. -/
theorem claim_C8 (s : SessionState) (ops : List Op) (i : Nat)
    (hi : i < s.layouts.length) :
    (runFrom s ops).layouts[i]? = s.layouts[i]?
    ∧ ∀ t : String, (step s (Op.saveLayout t)).layouts =
        s.layouts ++ [⟨s.current_layout.name, t, s.current_layout.tendons,
          s.current_layout.grout_connections, s.current_layout.access_shafts,
          s.foundation_diameter, s.wall_thickness⟩] :=
  ⟨runFrom_layouts_getElem? ops s i hi, fun _ => rfl⟩

/-- C8 witness: after clearing and saving again, the first saved snapshot of a
concrete session is unchanged. -/
theorem claim_C8_witness :
    (runFrom ⟨⟨"Cur", [], [], []⟩, [⟨"Base", "t0", [], [], [], 12, 0.5⟩], 10, 0.8⟩
        [Op.addTendon 1 2 150, Op.clearAll, Op.saveLayout "t1"]).layouts[0]? =
      (⟨⟨"Cur", [], [], []⟩, [⟨"Base", "t0", [], [], [], 12, 0.5⟩], 10, 0.8⟩ :
        SessionState).layouts[0]? :=
  (claim_C8 ⟨⟨"Cur", [], [], []⟩, [⟨"Base", "t0", [], [], [], 12, 0.5⟩], 10, 0.8⟩
    [Op.addTendon 1 2 150, Op.clearAll, Op.saveLayout "t1"] 0 (by decide)).1

/-- C9: the exported CSV consists of the header row `id,x,y,diameter,type`
followed by exactly one data row per tendon in collection order, each data
row holding that tendon's five fields in the same column order. -/
theorem claim_C9 (ts : List (Tendon ℚ)) (_hne : ts ≠ []) :
    exportTendonsCsv ts =
      String.intercalate newlineStr
        ((exportTendonsRows ts).map (String.intercalate commaStr)) ++ newlineStr
    ∧ (exportTendonsRows ts).getD 0 [] = ["id", "x", "y", "diameter", "type"]
    ∧ (exportTendonsRows ts).length = ts.length + 1
    ∧ (∀ k, k < ts.length →
        (exportTendonsRows ts).getD (k + 1) [] = tendonCsvFields (ts.getD k defaultTendon))
    ∧ ∀ t : Tendon ℚ, tendonCsvFields t =
        [toString t.id, toString t.x, toString t.y, toString t.diameter, t.type] := by
  refine ⟨rfl, rfl, by simp [exportTendonsRows], ?_, fun t => rfl⟩
  intro k hk
  show (ts.map tendonCsvFields).getD k [] = _
  rw [List.getD_eq_getElem?_getD, List.getD_eq_getElem?_getD,
    List.getElem?_map, List.getElem?_eq_getElem hk]
  rfl

/-- C9 witness: the rows of a concrete one-tendon export. -/
theorem claim_C9_witness :
    (exportTendonsRows [⟨0, 1, 2, 150, "vertical"⟩]).getD 0 [] =
        ["id", "x", "y", "diameter", "type"]
    ∧ (exportTendonsRows [⟨0, 1, 2, 150, "vertical"⟩]).getD 1 [] =
        tendonCsvFields (⟨0, 1, 2, 150, "vertical"⟩ : Tendon ℚ) := by
  have h := claim_C9 [⟨0, 1, 2, 150, "vertical"⟩] (by simp)
  exact ⟨h.2.1, by simpa using h.2.2.2.1 0 (by decide)⟩

/-- Default used only to give `List.getD` a total type on real-coordinate
tendon lists. -/
def defaultTendonR : Tendon ℝ := ⟨0, 0, 0, 0, ""⟩

theorem generate_getD (count : Nat) (radius : ℝ) (diameter : ℚ) (k : Nat)
    (hk : k < count) :
    (generateCircularPattern count radius diameter).getD k defaultTendonR =
      ⟨k, radius * Real.cos (patternAngle count k), radius * Real.sin (patternAngle count k),
        diameter, "vertical"⟩ := by
  unfold generateCircularPattern
  rw [List.getD_eq_getElem?_getD, List.getElem?_map,
    List.getElem?_eq_getElem (by simpa using hk)]
  simp

/-- C4: pattern generation replaces the tendon collection by exactly `count`
tendons with ids `0..count-1` in generation order, tendon `k` having the
coordinates `(radius*cos(2*pi*k/count), radius*sin(2*pi*k/count))`; angle 0
is included, the full turn is excluded, consecutive angles differ by
`2*pi/count`, and every generated tendon lies at radial offset exactly
`radius`. -/
theorem claim_C4 (count : Nat) (radius : ℝ) (diameter : ℚ) (s : SessionState)
    (h4 : 4 ≤ count) (_h24 : count ≤ 24) (hr : 0 ≤ radius) :
    (step s (Op.generatePattern count radius diameter)).current_layout.tendons =
        generateCircularPattern count radius diameter
    ∧ (generateCircularPattern count radius diameter).length = count
    ∧ (∀ k, k < count →
        (generateCircularPattern count radius diameter).getD k defaultTendonR =
          ⟨k, radius * Real.cos (patternAngle count k),
            radius * Real.sin (patternAngle count k), diameter, "vertical"⟩)
    ∧ (∀ k, k < count →
        ((generateCircularPattern count radius diameter).getD k defaultTendonR).id = k)
    ∧ patternAngle count 0 = 0
    ∧ (∀ k : Nat, patternAngle count k = 2 * Real.pi * k / count)
    ∧ (∀ k, k < count → patternAngle count k < 2 * Real.pi)
    ∧ (∀ k, k + 1 < count →
        patternAngle count (k + 1) - patternAngle count k = 2 * Real.pi / count)
    ∧ (∀ k, k < count →
        Real.sqrt
            (((generateCircularPattern count radius diameter).getD k defaultTendonR).x ^ 2 +
              ((generateCircularPattern count radius diameter).getD k defaultTendonR).y ^ 2) =
          radius) := by
  have hcount : (0 : ℝ) < (count : ℝ) := by
    exact_mod_cast Nat.lt_of_lt_of_le (by norm_num) h4
  have hπ : (0 : ℝ) < Real.pi := Real.pi_pos
  refine ⟨rfl, by simp [generateCircularPattern], generate_getD count radius diameter, ?_, ?_,
    fun k => rfl, ?_, ?_, ?_⟩
  · intro k hk
    rw [generate_getD count radius diameter k hk]
  · unfold patternAngle
    simp
  · intro k hk
    unfold patternAngle
    rw [div_lt_iff₀ hcount]
    have hk' : (k : ℝ) < (count : ℝ) := by exact_mod_cast hk
    have h2π : (0 : ℝ) < 2 * Real.pi := by linarith
    nlinarith
  · intro k hk
    unfold patternAngle
    have hc0 : (count : ℝ) ≠ 0 := ne_of_gt hcount
    field_simp
    ring
  · intro k hk
    rw [generate_getD count radius diameter k hk]
    have htrig : Real.sin (patternAngle count k) ^ 2 + Real.cos (patternAngle count k) ^ 2 = 1 :=
      Real.sin_sq_add_cos_sq _
    have hsum : (radius * Real.cos (patternAngle count k)) ^ 2 +
        (radius * Real.sin (patternAngle count k)) ^ 2 = radius ^ 2 := by
      calc (radius * Real.cos (patternAngle count k)) ^ 2 +
            (radius * Real.sin (patternAngle count k)) ^ 2
          = radius ^ 2 * (Real.sin (patternAngle count k) ^ 2 +
              Real.cos (patternAngle count k) ^ 2) := by ring
        _ = radius ^ 2 := by rw [htrig, mul_one]
    show Real.sqrt ((radius * Real.cos (patternAngle count k)) ^ 2 +
        (radius * Real.sin (patternAngle count k)) ^ 2) = radius
    rw [hsum, Real.sqrt_sq hr]

/-- C4 witness: a concrete 4-tendon pattern at radius 1. -/
theorem claim_C4_witness :
    (generateCircularPattern 4 1 150).length = 4
    ∧ ((generateCircularPattern 4 1 150).getD 0 defaultTendonR).id = 0
    ∧ Real.sqrt (((generateCircularPattern 4 1 150).getD 0 defaultTendonR).x ^ 2 +
        ((generateCircularPattern 4 1 150).getD 0 defaultTendonR).y ^ 2) = 1 := by
  have h := claim_C4 4 1 150 initState (by decide) (by decide) (by norm_num)
  exact ⟨h.2.1, h.2.2.2.1 0 (by decide), h.2.2.2.2.2.2.2.2 0 (by decide)⟩

/-- A list of ids is canonical when it is exactly `0, 1, ..., length-1`. -/
def idsCanonical (ids : List Nat) : Prop := ids = List.range ids.length

/-- All three variant collections of a layout have canonical ids. -/
def layoutIdsCanonical {α : Type} (L : Layout α) : Prop :=
  idsCanonical (L.tendons.map fun t => t.id)
  ∧ idsCanonical (L.grout_connections.map fun g => g.id)
  ∧ idsCanonical (L.access_shafts.map fun a => a.id)

/-- All three variant collections of a saved snapshot have canonical ids. -/
def savedIdsCanonical (l : SavedLayout) : Prop :=
  idsCanonical (l.tendons.map fun t => t.id)
  ∧ idsCanonical (l.grout_connections.map fun g => g.id)
  ∧ idsCanonical (l.access_shafts.map fun a => a.id)

/-- The reachable-state invariant: the current layout and every saved
snapshot have canonical ids. -/
def sessionInvariant (s : SessionState) : Prop :=
  layoutIdsCanonical s.current_layout ∧ ∀ l ∈ s.layouts, savedIdsCanonical l

theorem idsCanonical_append {ids : List Nat} (h : idsCanonical ids) :
    idsCanonical (ids ++ [ids.length]) := by
  unfold idsCanonical at h ⊢
  rw [List.length_append, List.length_singleton, List.range_succ, ← h]

theorem idsCanonical_generated (count : Nat) (radius : ℝ) (diameter : ℚ) :
    idsCanonical ((generateCircularPattern count radius diameter).map fun t => t.id) := by
  unfold idsCanonical generateCircularPattern
  rw [List.map_map]
  simp [Function.comp_def]

theorem idsCanonical_get {α : Type} (f : α → Nat) (l : List α)
    (h : idsCanonical (l.map f)) (k : Nat) (hk : k < l.length) :
    f (l.get ⟨k, hk⟩) = k := by
  unfold idsCanonical at h
  have hmk : k < (l.map f).length := by simpa using hk
  have h1 : (l.map f)[k]? = (List.range (l.map f).length)[k]? := by rw [← h]
  rw [List.getElem?_map, List.getElem?_eq_getElem hk] at h1
  rw [List.getElem?_eq_getElem (by simpa using hmk)] at h1
  simpa using h1

theorem step_preserves_sessionInvariant (s : SessionState) (op : Op)
    (h : sessionInvariant s) : sessionInvariant (step s op) := by
  obtain ⟨⟨ht, hg, ha⟩, hsaved⟩ := h
  cases op with
  | generatePattern c r d => exact ⟨⟨idsCanonical_generated c r d, hg, ha⟩, hsaved⟩
  | addTendon x y d =>
      refine ⟨⟨?_, hg, ha⟩, hsaved⟩
      have h2 := idsCanonical_append ht
      rw [List.length_map] at h2
      simpa [step, List.map_append] using h2
  | addGrout x y d =>
      refine ⟨⟨ht, ?_, ha⟩, hsaved⟩
      have h2 := idsCanonical_append hg
      rw [List.length_map] at h2
      simpa [step, List.map_append] using h2
  | addShaft x y d =>
      refine ⟨⟨ht, hg, ?_⟩, hsaved⟩
      have h2 := idsCanonical_append ha
      rw [List.length_map] at h2
      simpa [step, List.map_append] using h2
  | clearAll => exact ⟨⟨rfl, rfl, rfl⟩, hsaved⟩
  | setFoundation fd wt => exact ⟨⟨ht, hg, ha⟩, hsaved⟩
  | setName n => exact ⟨⟨ht, hg, ha⟩, hsaved⟩
  | saveLayout t =>
      refine ⟨⟨ht, hg, ha⟩, ?_⟩
      intro l hl
      rcases List.mem_append.mp hl with hold | hnew
      · exact hsaved l hold
      · rw [List.mem_singleton.mp hnew]
        exact ⟨ht, hg, ha⟩
  | loadLayout i =>
      rcases h' : s.layouts[i]? with _ | l
      · simp only [step, h']
        exact ⟨⟨ht, hg, ha⟩, hsaved⟩
      · simp only [step, h']
        have hmem : l ∈ s.layouts := List.getElem?_mem h'
        exact ⟨hsaved l hmem, hsaved⟩

theorem runFrom_preserves_sessionInvariant (ops : List Op) :
    ∀ s, sessionInvariant s → sessionInvariant (runFrom s ops) := by
  induction ops with
  | nil =>
      intro s h
      exact h
  | cons op ops ih =>
      intro s h
      exact ih _ (step_preserves_sessionInvariant s op h)

theorem initState_invariant : sessionInvariant initState := by
  refine ⟨⟨?_, ?_, ?_⟩, ?_⟩ <;> first
    | rfl
    | (intro l hl; cases hl)

/-- C10: from the initial empty session, every reachable current layout has
canonical ids `0..count-1` in each variant collection (and so does every
saved snapshot), hence the list index of a component always equals its id. -/
theorem claim_C10 (ops : List Op) :
    sessionInvariant (runFrom initState ops)
    ∧ (∀ k (hk : k < (runFrom initState ops).current_layout.tendons.length),
        ((runFrom initState ops).current_layout.tendons.get ⟨k, hk⟩).id = k)
    ∧ (∀ k (hk : k < (runFrom initState ops).current_layout.grout_connections.length),
        ((runFrom initState ops).current_layout.grout_connections.get ⟨k, hk⟩).id = k)
    ∧ (∀ k (hk : k < (runFrom initState ops).current_layout.access_shafts.length),
        ((runFrom initState ops).current_layout.access_shafts.get ⟨k, hk⟩).id = k) := by
  have hinv := runFrom_preserves_sessionInvariant ops initState initState_invariant
  refine ⟨hinv, ?_, ?_, ?_⟩
  · intro k hk
    exact idsCanonical_get _ _ hinv.1.1 k hk
  · intro k hk
    exact idsCanonical_get _ _ hinv.1.2.1 k hk
  · intro k hk
    exact idsCanonical_get _ _ hinv.1.2.2 k hk

/-- C10 witness: after one manual addition to the empty session the new
tendon sits at index 0 with id 0. -/
theorem claim_C10_witness :
    ((runFrom initState [Op.addTendon 0 0 150]).current_layout.tendons.get
        ⟨0, by decide⟩).id = 0 :=
  (claim_C10 [Op.addTendon 0 0 150]).2.1 0 (by decide)

/-- C2: Check 2 examines exactly the index pairs (i, j) with i < j (each
unordered pair once, never the reversed order), reports a violating pair
exactly once with both indices — which equal the two tendons' ids whenever
the collection's ids are canonical — and its condition is equivalent to the
real comparison `dist < (d_i + d_j)/1000/2 + 0.3`, which is symmetric in the
pair; two 300 mm tendons centered 0.3 m apart violate clearance (required
minimum 0.6 m) without any containment false-positive from unit confusion. -/
theorem claim_C2 (ts : List (Tendon ℚ)) (i j : Nat) (hij : i < j) (hj : j < ts.length) :
    ((check2 ts).countP (isClearancePair i j) =
      if clearanceViolated (ts.getD i defaultTendon) (ts.getD j defaultTendon) then 1
      else 0)
    ∧ (check2 ts).countP (isClearancePair j i) = 0
    ∧ (∀ t1 t2 : Tendon ℚ, clearanceViolated t1 t2 ↔
        Real.sqrt (((t1.x : ℝ) - (t2.x : ℝ)) ^ 2 + ((t1.y : ℝ) - (t2.y : ℝ)) ^ 2) <
          ((t1.diameter : ℝ) + (t2.diameter : ℝ)) / 1000 / 2 + 0.3)
    ∧ (∀ t1 t2 : Tendon ℚ, clearanceViolated t1 t2 ↔ clearanceViolated t2 t1)
    ∧ (idsCanonical (ts.map fun t => t.id) →
        (ts.getD i defaultTendon).id = i ∧ (ts.getD j defaultTendon).id = j)
    ∧ clearanceViolated ⟨0, 0.15, 0, 300, "vertical"⟩ ⟨1, -0.15, 0, 300, "vertical"⟩
    ∧ minDistQ ⟨0, 0.15, 0, 300, "vertical"⟩ ⟨1, -0.15, 0, 300, "vertical"⟩ = 0.6
    ∧ ¬ containmentViolated ⟨10, 0.8⟩ ⟨0, 0.15, 0, 300, "vertical"⟩ := by
  refine ⟨countP_check2 ts i j hij hj, countP_check2_rev ts i j hij, ?_, ?_, ?_, ?_, ?_, ?_⟩
  · intro t1 t2
    unfold clearanceViolated
    rw [sqrtLtQ_iff_real]
    have h1 : (((t1.x - t2.x) ^ 2 + (t1.y - t2.y) ^ 2 : ℚ) : ℝ) =
        ((t1.x : ℝ) - (t2.x : ℝ)) ^ 2 + ((t1.y : ℝ) - (t2.y : ℝ)) ^ 2 := by
      push_cast
      ring
    have h2 : ((minDistQ t1 t2 : ℚ) : ℝ) =
        ((t1.diameter : ℝ) + (t2.diameter : ℝ)) / 1000 / 2 + 0.3 := by
      unfold minDistQ min_clearance
      push_cast
      norm_num
    rw [h1, h2]
  · intro t1 t2
    have hsq : (t1.x - t2.x) ^ 2 + (t1.y - t2.y) ^ 2 =
        (t2.x - t1.x) ^ 2 + (t2.y - t1.y) ^ 2 := by ring
    have hmd : minDistQ t1 t2 = minDistQ t2 t1 := by
      unfold minDistQ
      ring_nf
    unfold clearanceViolated
    rw [hsq, hmd]
  · intro hcan
    have hi' : i < ts.length := lt_trans hij hj
    have e1 : ts.getD i defaultTendon = ts.get ⟨i, hi'⟩ := by
      rw [List.getD_eq_getElem?_getD, List.getElem?_eq_getElem hi']
      rfl
    have e2 : ts.getD j defaultTendon = ts.get ⟨j, hj⟩ := by
      rw [List.getD_eq_getElem?_getD, List.getElem?_eq_getElem hj]
      rfl
    rw [e1, e2]
    exact ⟨idsCanonical_get _ _ hcan i hi', idsCanonical_get _ _ hcan j hj⟩
  · unfold clearanceViolated sqrtLtQ minDistQ min_clearance
    norm_num
  · unfold minDistQ min_clearance
    norm_num
  · unfold containmentViolated sqrtGtQ
    norm_num

/-- C2 witness: the concrete 300 mm pair at distance 0.3 m is reported
exactly once under key (0, 1). -/
theorem claim_C2_witness :
    (check2 [⟨0, 0.15, 0, 300, "vertical"⟩, ⟨1, -0.15, 0, 300, "vertical"⟩]).countP
        (isClearancePair 0 1) = 1
    ∧ (check2 [⟨0, 0.15, 0, 300, "vertical"⟩, ⟨1, -0.15, 0, 300, "vertical"⟩]).countP
        (isClearancePair 1 0) = 0 := by
  have h := claim_C2 [⟨0, 0.15, 0, 300, "vertical"⟩, ⟨1, -0.15, 0, 300, "vertical"⟩] 0 1
    (by decide) (by decide)
  have hviol : clearanceViolated
      (([⟨0, 0.15, 0, 300, "vertical"⟩, ⟨1, -0.15, 0, 300, "vertical"⟩] :
        List (Tendon ℚ)).getD 0 defaultTendon)
      (([⟨0, 0.15, 0, 300, "vertical"⟩, ⟨1, -0.15, 0, 300, "vertical"⟩] :
        List (Tendon ℚ)).getD 1 defaultTendon) := h.2.2.2.2.2.1
  constructor
  · rw [h.1, if_pos hviol]
  · exact h.2.1

theorem check2_singleton (t : Tendon ℚ) : check2 [t] = [] := rfl

/-- C3: a layout's `violations` list is non-empty exactly when the
containment rule fires for some tendon or the clearance rule fires for some
index pair, `warnings` is non-empty exactly when the grout-tendon proximity
rule (distance strictly below `groutR + tendonR + 0.2` meters) fires for
some pair, a proximity finding is never among the violations, and the two
lists are independent: concrete layouts realize neither / only violations /
only warnings / both. -/
theorem claim_C3 (fs : FoundationSpec) (L : Layout ℚ) :
    ((validate fs L).violations ≠ [] ↔
      (∃ t ∈ L.tendons, containmentViolated fs t) ∨
      ∃ i j, i < j ∧ j < L.tendons.length ∧
        clearanceViolated (L.tendons.getD i defaultTendon) (L.tendons.getD j defaultTendon))
    ∧ ((validate fs L).warnings ≠ [] ↔
      ∃ g ∈ L.grout_connections, ∃ t ∈ L.tendons, groutNearTendon g t)
    ∧ (∀ g t, groutNearTendon g t ↔
        Real.sqrt (((g.x : ℝ) - (t.x : ℝ)) ^ 2 + ((g.y : ℝ) - (t.y : ℝ)) ^ 2) <
          (g.diameter : ℝ) / 1000 / 2 + (t.diameter : ℝ) / 1000 / 2 + 0.2)
    ∧ (∀ f ∈ (validate fs L).violations, ∀ gid tid, f ≠ Finding.groutNear gid tid)
    ∧ validate ⟨10, 0.8⟩ ⟨"N", [], [], []⟩ = ⟨[], []⟩
    ∧ ((validate ⟨10, 0.8⟩ ⟨"V", [⟨0, 5, 0, 150, "vertical"⟩], [], []⟩).violations ≠ []
        ∧ (validate ⟨10, 0.8⟩ ⟨"V", [⟨0, 5, 0, 150, "vertical"⟩], [], []⟩).warnings = [])
    ∧ ((validate ⟨10, 0.8⟩
          ⟨"W", [⟨0, 0, 0, 150, "vertical"⟩], [⟨0, 0.1, 0, 400⟩], []⟩).violations = []
        ∧ (validate ⟨10, 0.8⟩
          ⟨"W", [⟨0, 0, 0, 150, "vertical"⟩], [⟨0, 0.1, 0, 400⟩], []⟩).warnings ≠ [])
    ∧ ((validate ⟨10, 0.8⟩
          ⟨"B", [⟨0, 5, 0, 150, "vertical"⟩], [⟨0, 5.1, 0, 400⟩], []⟩).violations ≠ []
        ∧ (validate ⟨10, 0.8⟩
          ⟨"B", [⟨0, 5, 0, 150, "vertical"⟩], [⟨0, 5.1, 0, 400⟩], []⟩).warnings ≠ []) := by
  refine ⟨?_, ?_, ?_, ?_, rfl, ⟨?_, rfl⟩, ⟨?_, ?_⟩, ⟨?_, ?_⟩⟩
  · constructor
    · intro hne
      rcases List.exists_mem_of_ne_nil _ hne with ⟨f, hf⟩
      rcases List.mem_append.mp hf with h1 | h2
      · rcases (mem_check1 fs L.tendons f).mp h1 with ⟨t, ht, hv, _⟩
        exact Or.inl ⟨t, ht, hv⟩
      · rcases (mem_check2 L.tendons f).mp h2 with ⟨i, j, hij, hj, hv, _⟩
        exact Or.inr ⟨i, j, hij, hj, hv⟩
    · rintro (⟨t, ht, hv⟩ | ⟨i, j, hij, hj, hv⟩)
      · exact List.ne_nil_of_mem
          (List.mem_append_left _ ((mem_check1 fs L.tendons _).mpr ⟨t, ht, hv, rfl⟩))
      · exact List.ne_nil_of_mem
          (List.mem_append_right _ ((mem_check2 L.tendons _).mpr ⟨i, j, hij, hj, hv, rfl⟩))
  · constructor
    · intro hne
      rcases List.exists_mem_of_ne_nil _ hne with ⟨f, hf⟩
      rcases (mem_check3 L.grout_connections L.tendons f).mp hf with ⟨g, hg, t, ht, hv, _⟩
      exact ⟨g, hg, t, ht, hv⟩
    · rintro ⟨g, hg, t, ht, hv⟩
      exact List.ne_nil_of_mem ((mem_check3 L.grout_connections L.tendons _).mpr
        ⟨g, hg, t, ht, hv, rfl⟩)
  · intro g t
    unfold groutNearTendon
    rw [sqrtLtQ_iff_real]
    have h1 : (((g.x - t.x) ^ 2 + (g.y - t.y) ^ 2 : ℚ) : ℝ) =
        ((g.x : ℝ) - (t.x : ℝ)) ^ 2 + ((g.y : ℝ) - (t.y : ℝ)) ^ 2 := by
      push_cast
      ring
    have h2 : ((g.diameter / 1000 / 2 + t.diameter / 1000 / 2 + 0.2 : ℚ) : ℝ) =
        (g.diameter : ℝ) / 1000 / 2 + (t.diameter : ℝ) / 1000 / 2 + 0.2 := by
      push_cast
      norm_num
    rw [h1, h2]
  · intro f hf gid tid
    rcases List.mem_append.mp hf with h1 | h2
    · rcases (mem_check1 fs L.tendons f).mp h1 with ⟨t, _, _, rfl⟩
      simp
    · rcases (mem_check2 L.tendons f).mp h2 with ⟨i, j, _, _, _, rfl⟩
      simp
  · apply List.ne_nil_of_mem (a := Finding.containment 0)
    apply List.mem_append_left
    apply (mem_check1 _ _ _).mpr
    refine ⟨⟨0, 5, 0, 150, "vertical"⟩, List.mem_singleton_self _, ?_, rfl⟩
    unfold containmentViolated sqrtGtQ
    norm_num
  · show check1 ⟨10, 0.8⟩ [⟨0, 0, 0, 150, "vertical"⟩] ++
      check2 [⟨0, 0, 0, 150, "vertical"⟩] = []
    rw [check2_singleton, List.append_nil]
    rw [check1_eq_nil_iff]
    intro t ht
    rw [List.mem_singleton.mp ht]
    unfold containmentViolated sqrtGtQ
    norm_num
  · apply List.ne_nil_of_mem (a := Finding.groutNear 0 0)
    apply (mem_check3 _ _ _).mpr
    refine ⟨⟨0, 0.1, 0, 400⟩, List.mem_singleton_self _,
      ⟨0, 0, 0, 150, "vertical"⟩, List.mem_singleton_self _, ?_, rfl⟩
    unfold groutNearTendon sqrtLtQ
    norm_num
  · apply List.ne_nil_of_mem (a := Finding.containment 0)
    apply List.mem_append_left
    apply (mem_check1 _ _ _).mpr
    refine ⟨⟨0, 5, 0, 150, "vertical"⟩, List.mem_singleton_self _, ?_, rfl⟩
    unfold containmentViolated sqrtGtQ
    norm_num
  · apply List.ne_nil_of_mem (a := Finding.groutNear 0 0)
    apply (mem_check3 _ _ _).mpr
    refine ⟨⟨0, 5.1, 0, 400⟩, List.mem_singleton_self _,
      ⟨0, 5, 0, 150, "vertical"⟩, List.mem_singleton_self _, ?_, rfl⟩
    unfold groutNearTendon sqrtLtQ
    norm_num

/-- C3 witness: the warnings iff, instantiated at a concrete warning-only
layout, certifies its non-empty warnings list. -/
theorem claim_C3_witness :
    (validate ⟨10, 0.8⟩
      ⟨"W", [⟨0, 0, 0, 150, "vertical"⟩], [⟨0, 0.1, 0, 400⟩], []⟩).warnings ≠ [] := by
  apply (claim_C3 ⟨10, 0.8⟩
    ⟨"W", [⟨0, 0, 0, 150, "vertical"⟩], [⟨0, 0.1, 0, 400⟩], []⟩).2.1.mpr
  refine ⟨⟨0, 0.1, 0, 400⟩, List.mem_singleton_self _,
    ⟨0, 0, 0, 150, "vertical"⟩, List.mem_singleton_self _, ?_⟩
  unfold groutNearTendon sqrtLtQ
  norm_num

end FoundationLayout
